import Mathlib

/-
Verification of tools/generate_features.py (scope repository).

This file shallowly embeds the bright-star contamination filter
`drop_close_bright_stars` and the batch feature-computation pipeline
`generate_features` into Lean 4, and settles the frozen claims C1..C10
about them.

Modelling conventions:
* Python floats are embedded as exact rationals `ℚ`.
* The astropy angular-separation computation (`SkyCoord.separation`) is a
  numeric library routine; it is abstracted as a separation function field
  `sep` of `DropCtx` (an arbitrary rational-valued function of two shifted
  coordinate pairs, in arcseconds).  The conversions `TychoBVfromGaia` and
  `exclude_radius` live in scope/utils.py, outside the sources given here;
  they are likewise abstracted as function fields.  All control flow and
  comparisons around these functions are translated exactly from
  tools/generate_features.py.
* A Python `dict` keyed by source id is embedded as an association list
  `List (String × _)` (ids are unique within a run; insertion order is
  preserved like a Python dict).
* A raised Python exception that escapes a function is embedded as
  `Except.error`; code that cannot raise is embedded as a total function.
-/

set_option maxHeartbeats 1000000

namespace Scope

/-- GeoJSON sky position as stored in the catalog documents:
`radec_geojson.coordinates = [ra - 180, dec]`. -/
structure RadecGeojson where
  ra : ℚ
  dec : ℚ
deriving DecidableEq

/-- One entry of `id_dct`: the per-source value dict, of which
`drop_close_bright_stars` reads only `radec_geojson.coordinates`. -/
structure SourceEntry where
  radec_geojson : RadecGeojson
deriving DecidableEq

/-- One Gaia cone-search result record, with the projected fields
`phot_g_mean_mag`, `bp_rp` and `coordinates.radec_geojson.coordinates`.
`bp_rp` is `Option` because not all Gaia sources have BP-RP; a missing
key raises `KeyError` in Python (caught at lines 202-207). -/
structure GaiaRecord where
  coordinates : RadecGeojson
  phot_g_mean_mag : ℚ
  bp_rp : Option ℚ
deriving DecidableEq

/-- The `+ 180` right-ascension shift applied before separations are
computed (lines 116, 171, 176, 193 of generate_features.py). -/
def shifted (r : RadecGeojson) : ℚ × ℚ := (r.ra + 180, r.dec)

/-- Collaborator functions used by `drop_close_bright_stars`:
an abstract angular-separation function (arcsec) standing for
`SkyCoord.separation`, the Gaia→Tycho magnitude conversion
`TychoBVfromGaia` and the `exclude_radius` formula from scope/utils.py,
and the `xmatch_radius_arcsec` parameter. -/
structure DropCtx where
  sep : ℚ × ℚ → ℚ × ℚ → ℚ
  tychoBV : ℚ → ℚ → ℚ × ℚ
  exclRadiusBV : ℚ → ℚ → ℚ
  xmatchRadiusArcsec : ℚ

/-- Lines 201-207: `B, V = TychoBVfromGaia(g, bp_rp); excl_radius =
exclude_radius(B, V)`, with `KeyError` on a missing `bp_rp` caught and
turned into `excl_radius = 0.0`. -/
def exclRadiusOf (ctx : DropCtx) (g : GaiaRecord) : ℚ :=
  match g.bp_rp with
  | none => 0
  | some c =>
    let bv := ctx.tychoBV g.phot_g_mean_mag c
    ctx.exclRadiusBV bv.1 bv.2

/-- Accumulator loop for `np.argmin`: scans the tail keeping the index and
value of the least element seen so far; a strict `<` is required to
update, so the FIRST occurrence of the minimum wins, as in numpy. -/
def argminAux : List ℚ → ℕ → ℕ × ℚ → ℕ × ℚ
  | [], _, acc => acc
  | x :: xs, cur, acc =>
    if x < acc.2 then argminAux xs (cur + 1) (cur, x)
    else argminAux xs (cur + 1) acc

/-- Translation of `np.argmin` on a list of rationals (line 180); 0 on the empty list
(numpy would raise there, but the call site is guarded by
`len(single_result) > 0`). -/
def argminIdx : List ℚ → ℕ
  | [] => 0
  | x :: xs => (argminAux xs 1 (0, x)).1

/-- Line 178: separations of every candidate from the input source
position (`Coords.separation(coord)`), in candidate order. -/
def sepsOf (ctx : DropCtx) (srcCoord : ℚ × ℚ) (res : List GaiaRecord) : List ℚ :=
  res.map (fun g => ctx.sep (shifted g.coordinates) srcCoord)

/-- Placeholder record used only as the (unreachable) default of indexed
access on a nonempty candidate list. -/
def dummyGaia : GaiaRecord :=
  { coordinates := { ra := 0, dec := 0 }, phot_g_mean_mag := 0, bp_rp := none }

/-- Lines 180-198: find the minimum-separation candidate; if it is within
`xmatch_radius_arcsec`, pop it from the candidate list and use its
(shifted) Gaia coordinates as the reference position; otherwise keep all
candidates and use the (shifted) input source position. Returns
`(remaining candidates, reference position)`. -/
def selfMatchStep (ctx : DropCtx) (srcCoord : ℚ × ℚ) (res : List GaiaRecord) :
    List GaiaRecord × (ℚ × ℚ) :=
  let seps := sepsOf ctx srcCoord res
  let i := argminIdx seps
  if seps.getD i 0 < ctx.xmatchRadiusArcsec then
    (res.eraseIdx i, shifted (res.getD i dummyGaia).coordinates)
  else
    (res, srcCoord)

/-- Lines 201-213 for one candidate: drop the source iff
`excl_radius > 0.0` and `excl_radius > sep(xmatch_coord, candidate)`.
Note there is no lower bound on the separation. -/
def dropPred (ctx : DropCtx) (ref : ℚ × ℚ) (g : GaiaRecord) : Bool :=
  let er := exclRadiusOf ctx g
  decide (0 < er) && decide (ctx.sep ref (shifted g.coordinates) < er)

/-- Lines 159-213 for one source id: `true` iff the source is dropped from
`id_dct_keep`.  A source with no returned candidates is never dropped
(`len(single_result) > 0` guard); otherwise the self-match step runs and
the source is dropped on the first remaining candidate whose exclusion
radius is positive and exceeds its separation from the reference
position (`break` = `List.any` short-circuit). -/
def processId (ctx : DropCtx) (entry : SourceEntry) (res : List GaiaRecord) : Bool :=
  if res.isEmpty then false
  else
    let srcCoord := shifted entry.radec_geojson
    let rs := selfMatchStep ctx srcCoord res
    rs.1.any (dropPred ctx rs.2)

/-- The per-id loop of `drop_close_bright_stars` (lines 150-216).
`results` is the merged `gaia_results_dct` (keyed by id, as returned by
the batched cone-search queries).  Line 163 `gaia_results_dct[str(id)]`
raises `KeyError` when an id is absent, so a missing key makes the whole
call fail (`Except.error ()`); otherwise the surviving id-entry pairs are
returned in input order. -/
def dropRun (ctx : DropCtx) (results : String → Option (List GaiaRecord)) :
    List (String × SourceEntry) → Except Unit (List (String × SourceEntry))
  | [] => Except.ok []
  | (i, e) :: rest =>
    match results i with
    | none => Except.error ()
    | some res =>
      match dropRun ctx results rest with
      | Except.error err => Except.error err
      | Except.ok keep =>
        Except.ok (if processId ctx e res then keep else (i, e) :: keep)

/-- Concrete separation model (squared Euclidean distance on the shifted
coordinate plane) used to build counterexamples and witnesses; it is one
admissible instantiation of the abstract `sep` field. -/
def sepSq (p q : ℚ × ℚ) : ℚ :=
  (p.1 - q.1) * (p.1 - q.1) + (p.2 - q.2) * (p.2 - q.2)

/-- Concrete context for counterexamples/witnesses: every candidate with a
color gets exclusion radius 10 arcsec, `xmatch_radius_arcsec = 2.0` (the
default). -/
def exCtx : DropCtx :=
  { sep := sepSq
    tychoBV := fun g c => (g, c)
    exclRadiusBV := fun _ _ => 10
    xmatchRadiusArcsec := 2 }

/-- Concrete input source at geojson coordinates (0, 0). -/
def exEntry : SourceEntry := { radec_geojson := { ra := 0, dec := 0 } }

/-- Candidate exactly at the source position, lacking BP-RP. -/
def exG1 : GaiaRecord :=
  { coordinates := { ra := 0, dec := 0 }, phot_g_mean_mag := 10, bp_rp := some 0 }

/-- Second candidate, also exactly at the source position, with BP-RP. -/
def exG2 : GaiaRecord :=
  { coordinates := { ra := 0, dec := 0 }, phot_g_mean_mag := 10, bp_rp := some 1 }

/-
The batch feature-computation pipeline (`generate_features`,
lines 219-639).  Persistence (parquet/metadata writes) is I/O and is not
modelled; the modelled result is the returned feature table.  The remote
services and the statistics/period-search libraries (out-of-scope
collaborators per the spec) are abstracted as function fields of
`Collab`; all control flow, filtering and table bookkeeping around them
is translated from the source.
-/

/-- One raw light-curve epoch as returned by the light-curve service:
`hjd`, `mag`, `magerr`, `catflags`. -/
structure LCPoint where
  hjd : ℚ
  mag : ℚ
  magerr : ℚ
  catflags : ℕ
deriving DecidableEq

/-- One source's light curve: `_id`, `filter`, and the epoch list. -/
structure LC where
  lcId : String
  flt : ℚ
  data : List LCPoint
deriving DecidableEq

/-- Lines 318-321: drop flagged epochs (`catflags == 0` kept) and build
the list of `[hjd, mag, magerr]` rows. -/
def tmeOf (lc : LC) : List (List ℚ) :=
  (lc.data.filter (fun x => x.catflags == 0)).map (fun x => [x.hjd, x.mag, x.magerr])

/-- Lines 323-324: `np.array(tme)` followed by unpacking the transpose
into three rows.  This succeeds exactly when the row list is nonempty and
every row has length 3 (an empty list gives a shape-(0,) array and a
ragged or wrong-width list cannot be unpacked into three columns); any
other shape raises `ValueError`, modelled as `none`. -/
def parseTME (tme : List (List ℚ)) : Option (List (ℚ × ℚ × ℚ)) :=
  if tme ≠ [] ∧ ∀ r ∈ tme, r.length = 3 then
    some (tme.map (fun r => (r.getD 0 0, r.getD 1 0, r.getD 2 0)))
  else none

/-- Tail of the cadence collapse: drop any epoch closer than `cadence` to
the last kept epoch, keep it otherwise. -/
def collapseGo (cadence : ℚ) : ℚ → List (ℚ × ℚ × ℚ) → List (ℚ × ℚ × ℚ)
  | _, [] => []
  | last, p :: ps =>
    if p.1 - last < cadence then collapseGo cadence last ps
    else p :: collapseGo cadence p.1 ps

/-- Modelled from the spec: `scope.utils.removeHighCadence` (line 327) is
not among the given sources.  Spec 4.2: iterate through the series;
whenever consecutive timestamps fall within the cadence window of each
other, keep only the first of the run and discard the rest (threshold in
the same unit as the timestamps). -/
def collapseCadence (cadence : ℚ) : List (ℚ × ℚ × ℚ) → List (ℚ × ℚ × ℚ)
  | [] => []
  | p :: ps => p :: collapseGo cadence p.1 ps

/-- One row of the feature table: feature name → value pairs, in
insertion order. -/
abbrev FeatureRow := List (String × ℚ)

/-- The `feature_dict`: source id → accumulated feature row. -/
abbrev FeatureDict := List (String × FeatureRow)

/-- Python `dict.pop(id)`: remove the (unique) entry with the given key. -/
def popKey (d : FeatureDict) (i : String) : FeatureDict :=
  d.eraseP (fun kv => kv.1 == i)

/-- Python `feature_dict[id][k] = v` for a batch of keys: append the key-value
pairs to the row of the given id (ids are unique in a run; keys added
later shadow earlier ones on lookup, like Python dict assignment). -/
def updateKeys (d : FeatureDict) (i : String) (kvs : FeatureRow) : FeatureDict :=
  d.map (fun kv => if kv.1 == i then (kv.1, kv.2 ++ kvs) else kv)

/-- The id column of the feature table. -/
def dictIds (d : FeatureDict) : List String := d.map (fun kv => kv.1)

/-- The configuration arguments of `generate_features` that the modelled
portion reads. -/
structure GenCfg where
  doCPU : Bool
  doGPU : Bool
  doLongPeriod : Bool
  doRemoveTerrestrial : Bool
  doCesium : Bool
  samples_per_peak : ℕ
  min_n_lc_points : ℕ
  min_cadence_minutes : ℚ
  period_algorithms : List String
  field : ℤ
  ccd : ℤ
  quad : ℤ

/-- The external collaborators of `generate_features`: the id query, the
bright-star query responses and separation/radius functions, the
light-curve service, and the statistics / period-search / alert /
cross-match libraries (all out-of-scope per the spec, abstracted as
total functions). -/
structure Collab where
  getIds : List (String × SourceEntry)
  gaiaResults : String → Option (List GaiaRecord)
  dropCtx : DropCtx
  lightcurves : List String → List LC
  basicStats : List (ℚ × ℚ × ℚ) → FeatureRow
  cesiumFeatures : List (ℚ × ℚ × ℚ) → FeatureRow
  findPeriods : String → List (List (ℚ × ℚ × ℚ)) → List ℚ →
    Option (List (ℚ × ℚ)) → List ℚ × List ℚ × List ℚ
  fourierStats : String → List (ℚ × ℚ × ℚ) → ℚ → FeatureRow
  computeDmdt : List (ℚ × ℚ × ℚ) → ℚ
  alertStats : String → ℚ × ℚ
  xmatchRow : String → FeatureRow

/-- Observable external actions of a run, in order: a catalog/service
query, or a period-search execution. -/
inductive Event where
  | query : String → Event
  | periodSearch : String → Event
deriving DecidableEq

/-- State of the per-light-curve loop (lines 307-420): the feature dict,
`keep_id_list`, `tme_collection`, and the running largest `baseline`. -/
structure LoopState where
  featureDict : FeatureDict
  keepIds : List String
  tmeColl : List (List (ℚ × ℚ × ℚ))
  baseline : ℚ
deriving DecidableEq

/-- Fallback entry for the (in-run unreachable) case of a light-curve id
absent from the survivor dict. -/
def dummyEntry : SourceEntry := { radec_geojson := { ra := 0, dec := 0 } }

/-- Lines 346-356: the basic info keys added for a surviving source. -/
def basicInfo (survivors : List (String × SourceEntry)) (cfg : GenCfg)
    (i : String) (flt : ℚ) : FeatureRow :=
  let entry := (survivors.lookup i).getD dummyEntry
  [(("ra"), entry.radec_geojson.ra + 180),
   (("dec"), entry.radec_geojson.dec),
   (("field"), (cfg.field : ℚ)),
   (("ccd"), (cfg.ccd : ℚ)),
   (("quad"), (cfg.quad : ℚ)),
   (("filter"), flt)]

/-- The body of the per-light-curve loop (lines 311-420) for one light
curve.  A `ValueError` from the three-column unpack is caught and pops
the id (lines 419-420); a too-short collapsed series pops the id
(lines 330-331); otherwise the id joins `keep_id_list`, the baseline is
updated, the collapsed series is collected, and the basic-info /
basic-stats / optional cesium keys are added to the id's row. -/
def processLC (cfg : GenCfg) (collab : Collab)
    (survivors : List (String × SourceEntry)) (st : LoopState) (lc : LC) :
    LoopState :=
  match parseTME (tmeOf lc) with
  | none => { st with featureDict := popKey st.featureDict lc.lcId }
  | some rows =>
    let tte := collapseCadence cfg.min_cadence_minutes rows
    if tte.length < cfg.min_n_lc_points then
      { st with featureDict := popKey st.featureDict lc.lcId }
    else
      let tts := tte.map (fun p => p.1)
      let newBaseline := (tts.max?.getD 0) - (tts.min?.getD 0)
      let row := basicInfo survivors cfg lc.lcId lc.flt ++ collab.basicStats tte ++
        (if cfg.doCesium then collab.cesiumFeatures tte else [])
      { featureDict := updateKeys st.featureDict lc.lcId row
        keepIds := st.keepIds ++ [lc.lcId]
        tmeColl := st.tmeColl ++ [tte]
        baseline := if newBaseline > st.baseline then newBaseline else st.baseline }

/-- The whole per-light-curve loop (lines 311-420). -/
def processLCs (cfg : GenCfg) (collab : Collab)
    (survivors : List (String × SourceEntry)) (st : LoopState)
    (lcs : List LC) : LoopState :=
  lcs.foldl (processLC cfg collab survivors) st

/-- Line 425/427: minimum frequency `2 / baseline`. -/
def fminOf (baseline : ℚ) : ℚ := 2 / baseline

/-- Lines 424-427: maximum frequency, 48 in long-period mode, else 480. -/
def fmaxOf (doLongPeriod : Bool) : ℚ := if doLongPeriod then 48 else 480

/-- Line 429: `df = 1.0 / (samples_per_peak * baseline)`. -/
def dfOf (samples_per_peak : ℕ) (baseline : ℚ) : ℚ :=
  1 / (samples_per_peak * baseline)

/-- Line 430: `nf = int(np.ceil((fmax - fmin) / df))`. -/
def nfOf (samples_per_peak : ℕ) (baseline : ℚ) (doLongPeriod : Bool) : ℤ :=
  Int.ceil ((fmaxOf doLongPeriod - fminOf baseline) / dfOf samples_per_peak baseline)

/-- Line 431: `freqs = fmin + df * np.arange(nf)` (empty when `nf ≤ 0`,
as `np.arange` of a nonpositive count is empty). -/
def freqsOf (samples_per_peak : ℕ) (baseline : ℚ) (doLongPeriod : Bool) : List ℚ :=
  (List.range (nfOf samples_per_peak baseline doLongPeriod).toNat).map
    (fun k : ℕ => fminOf baseline + dfOf samples_per_peak baseline * (k : ℚ))

/-- Lines 434-445: the fixed terrestrial-frequency bands, passed to the
period search only when `doRemoveTerrestrial` is set. -/
def freqsToRemove (doRemoveTerrestrial : Bool) : Option (List (ℚ × ℚ)) :=
  if doRemoveTerrestrial then
    some [(3/100, 4/100), (395/100, 405/100), (295/100, 305/100),
          (195/100, 205/100), (95/100, 105/100), (48/100, 52/100),
          (32/100, 34/100)]
  else none

/-- Lines 486-536: per algorithm, walk `keep_id_list` in order and add the
Fourier-stat keys and the `period/significance/pdot` keys for that
algorithm to each surviving row. -/
def fourierStage (collab : Collab) (alg : String) (keepIds : List String)
    (tmeColl : List (List (ℚ × ℚ × ℚ))) (periods sigs pdots : List ℚ)
    (d : FeatureDict) : FeatureDict :=
  (keepIds.enum).foldl (fun acc im =>
    updateKeys acc im.2
      (collab.fourierStats alg (tmeColl.getD im.1 []) (periods.getD im.1 0) ++
       [(("period_" ++ alg), periods.getD im.1 0),
        (("significance_" ++ alg), sigs.getD im.1 0),
        (("pdot_" ++ alg), pdots.getD im.1 0)])) d

/-- Lines 538-549: add the dmdt-histogram key for each surviving id. -/
def dmdtStage (collab : Collab) (keepIds : List String)
    (tmeColl : List (List (ℚ × ℚ × ℚ))) (d : FeatureDict) : FeatureDict :=
  (keepIds.enum).foldl (fun acc im =>
    updateKeys acc im.2 [(("dmdt"), collab.computeDmdt (tmeColl.getD im.1 []))]) d

/-- Lines 551-562: ZTF alert statistics are added to every row of the
feature dict. -/
def alertStage (collab : Collab) (d : FeatureDict) : FeatureDict :=
  d.map (fun kv => (kv.1, kv.2 ++
    [(("n_ztf_alerts"), (collab.alertStats kv.1).1),
     (("mean_ztf_alert_braai"), (collab.alertStats kv.1).2)]))

/-- Lines 564-571: external cross-match features are merged into every
row of the feature dict. -/
def xmatchStage (collab : Collab) (d : FeatureDict) : FeatureDict :=
  d.map (fun kv => (kv.1, kv.2 ++ collab.xmatchRow kv.1))

/-- Lines 485-572: everything after the period search — Fourier stats per
algorithm, dmdt histograms, alert stats, cross-matches — producing the
final feature dict (the `pd.DataFrame.from_dict` rows). -/
def downstream (collab : Collab) (algorithms : List String)
    (periodResults : String → List ℚ × List ℚ × List ℚ)
    (keepIds : List String) (tmeColl : List (List (ℚ × ℚ × ℚ)))
    (d : FeatureDict) : FeatureDict :=
  let d1 := algorithms.foldl (fun acc alg =>
    fourierStage collab alg keepIds tmeColl (periodResults alg).1
      (periodResults alg).2.1 (periodResults alg).2.2 acc) d
  xmatchStage collab (alertStage collab (dmdtStage collab keepIds tmeColl d1))

/-- The catalog queries every run issues before the period-search stage:
the id query (melman, line 272), the batched bright-star queries
(gloria, line 287), and the light-curve query (melman, line 297). -/
def baseEvents : List Event :=
  [Event.query ("melman"), Event.query ("gloria"), Event.query ("melman")]

/-- Line 304: `feature_dict = feature_gen_source_list.copy()`, with the
loop state counters zeroed. -/
def initState (survivors : List (String × SourceEntry)) : LoopState :=
  { featureDict := survivors.map (fun kv => (kv.1, ([] : FeatureRow)))
    keepIds := []
    tmeColl := []
    baseline := 0 }

/-- The message of the `KeyError` raised at line 453. -/
def bothFlagsMsg : String := "Please set only one of -doCPU or -doGPU."

/-- Function `generate_features` (lines 219-639, `doNotSave` path): query ids,
filter bright-star contamination (a `KeyError` escaping
`drop_close_bright_stars` aborts the run), fetch light curves, run the
per-light-curve loop; if the largest baseline is positive build the
frequency grid, run (or skip) the period search — raising `KeyError`
when both `doCPU` and `doGPU` are set — and the downstream stages;
otherwise return the empty feature table.  The first component is the
ordered list of external actions that occurred before the function
returned or raised. -/
def generateFeatures (cfg : GenCfg) (collab : Collab) :
    List Event × Except String FeatureDict :=
  match dropRun collab.dropCtx collab.gaiaResults collab.getIds with
  | Except.error _ =>
    ([Event.query ("melman"), Event.query ("gloria")], Except.error ("KeyError"))
  | Except.ok survivors =>
    let lcs := collab.lightcurves (survivors.map (fun kv => kv.1))
    let st := processLCs cfg collab survivors (initState survivors) lcs
    if st.baseline > 0 then
      let freqs := freqsOf cfg.samples_per_peak st.baseline cfg.doLongPeriod
      let ftr := freqsToRemove cfg.doRemoveTerrestrial
      if cfg.doCPU || cfg.doGPU then
        if cfg.doCPU && cfg.doGPU then
          (baseEvents, Except.error bothFlagsMsg)
        else
          let pEvents := cfg.period_algorithms.map Event.periodSearch
          let d := downstream collab cfg.period_algorithms
            (fun alg => collab.findPeriods alg st.tmeColl freqs ftr)
            st.keepIds st.tmeColl st.featureDict
          (baseEvents ++ pEvents ++ [Event.query ("kowalski"), Event.query ("gloria")],
            Except.ok d)
      else
        let ones := st.tmeColl.map (fun _ => (1 : ℚ))
        let d := downstream collab [("Ones")] (fun _ => (ones, ones, ones))
          st.keepIds st.tmeColl st.featureDict
        (baseEvents ++ [Event.query ("kowalski"), Event.query ("gloria")],
          Except.ok d)
    else
      (baseEvents, Except.ok [])

/-- The C4 grid properties as a predicate: the defining formulas for
`fmin`, `fmax`, `df` and `nf`; the grid length; strict monotonicity; and
the first element. -/
def freqGridSpec (spp : ℕ) (baseline : ℚ) (dlp : Bool) : Prop :=
  fminOf baseline = 2 / baseline ∧
  fmaxOf dlp = (if dlp then (48 : ℚ) else 480) ∧
  dfOf spp baseline = 1 / (spp * baseline) ∧
  nfOf spp baseline dlp =
    Int.ceil ((fmaxOf dlp - fminOf baseline) / dfOf spp baseline) ∧
  (freqsOf spp baseline dlp).length = (nfOf spp baseline dlp).toNat ∧
  List.Pairwise (fun a b => a < b) (freqsOf spp baseline dlp) ∧
  (0 < nfOf spp baseline dlp →
    (freqsOf spp baseline dlp).head? = some (fminOf baseline))

/-- Configuration with both period-search flags set (`doCPU` and
`doGPU`), a minimal point floor so a short light curve survives. -/
def cfgBoth : GenCfg :=
  { doCPU := true, doGPU := true, doLongPeriod := false,
    doRemoveTerrestrial := false, doCesium := false, samples_per_peak := 10,
    min_n_lc_points := 1, min_cadence_minutes := 30,
    period_algorithms := [("LS")], field := 296, ccd := 1, quad := 1 }

/-- Default-like configuration: no period-search flags, floor 50. -/
def cfgPlain : GenCfg :=
  { doCPU := false, doGPU := false, doLongPeriod := false,
    doRemoveTerrestrial := false, doCesium := false, samples_per_peak := 10,
    min_n_lc_points := 50, min_cadence_minutes := 30,
    period_algorithms := [("LS")], field := 296, ccd := 1, quad := 1 }

/-- A well-formed two-epoch light curve (unflagged, 100 time units
apart). -/
def exLC : LC :=
  { lcId := ("a"), flt := 1,
    data := [{ hjd := 0, mag := 10, magerr := 1, catflags := 0 },
             { hjd := 100, mag := 10, magerr := 1, catflags := 0 }] }

/-- A light curve with no epochs at all: its row list is empty and fails
the three-column unpack. -/
def exLCbad : LC := { lcId := ("c"), flt := 1, data := [] }

/-- Concrete collaborators: one source `a` with no bright-star
candidates and the light curve `exLC`. -/
def exCollab : Collab :=
  { getIds := [(("a"), exEntry)]
    gaiaResults := fun _ => some []
    dropCtx := exCtx
    lightcurves := fun _ => [exLC]
    basicStats := fun _ => []
    cesiumFeatures := fun _ => []
    findPeriods := fun _ _ _ _ => ([], [], [])
    fourierStats := fun _ _ _ => []
    computeDmdt := fun _ => 0
    alertStats := fun _ => (0, 0)
    xmatchRow := fun _ => []
  }

/-- Concrete collaborators for an empty region: no sources, no light
curves. -/
def exCollabE : Collab :=
  { getIds := []
    gaiaResults := fun _ => some []
    dropCtx := exCtx
    lightcurves := fun _ => []
    basicStats := fun _ => []
    cesiumFeatures := fun _ => []
    findPeriods := fun _ _ _ _ => ([], [], [])
    fourierStats := fun _ _ _ => []
    computeDmdt := fun _ => 0
    alertStats := fun _ => (0, 0)
    xmatchRow := fun _ => []
  }


/-- The accumulator scan returns a value no larger than the starting value
and no larger than any scanned element. -/
theorem argminAux_le (xs : List ℚ) : ∀ (cur : ℕ) (acc : ℕ × ℚ),
    (argminAux xs cur acc).2 ≤ acc.2 ∧ ∀ y ∈ xs, (argminAux xs cur acc).2 ≤ y := by
  induction xs with
  | nil => intro cur acc; simp [argminAux]
  | cons x xs ih =>
    intro cur acc
    simp only [argminAux]
    split
    case isTrue h =>
      obtain ⟨h1, h2⟩ := ih (cur + 1) (cur, x)
      refine ⟨le_trans h1 (le_of_lt h), ?_⟩
      intro y hy
      rcases List.mem_cons.mp hy with rfl | hy
      · exact h1
      · exact h2 y hy
    case isFalse h =>
      obtain ⟨h1, h2⟩ := ih (cur + 1) acc
      refine ⟨h1, ?_⟩
      intro y hy
      rcases List.mem_cons.mp hy with rfl | hy
      · exact le_trans h1 (le_of_not_lt h)
      · exact h2 y hy

/-- The accumulator scan either keeps the starting pair or returns the
index (offset by `cur`) and value of some scanned element. -/
theorem argminAux_cases (xs : List ℚ) : ∀ (cur : ℕ) (acc : ℕ × ℚ),
    argminAux xs cur acc = acc ∨
    ∃ k, k < xs.length ∧ argminAux xs cur acc = (cur + k, xs.getD k 0) := by
  induction xs with
  | nil => intro cur acc; exact Or.inl rfl
  | cons x xs ih =>
    intro cur acc
    simp only [argminAux]
    split
    case isTrue h =>
      rcases ih (cur + 1) (cur, x) with heq | ⟨k, hk, heq⟩
      · refine Or.inr ⟨0, by simp, ?_⟩
        simpa using heq
      · refine Or.inr ⟨k + 1, by simpa using hk, ?_⟩
        rw [heq]
        simp only [List.getD_cons_succ, Prod.mk.injEq]
        refine ⟨by omega, trivial⟩
    case isFalse h =>
      rcases ih (cur + 1) acc with heq | ⟨k, hk, heq⟩
      · exact Or.inl heq
      · refine Or.inr ⟨k + 1, by simpa using hk, ?_⟩
        rw [heq]
        simp only [List.getD_cons_succ, Prod.mk.injEq]
        refine ⟨by omega, trivial⟩

/-- Function `argminIdx` returns an in-range index whose element is a minimum of
the list (the translation of `np.argmin` at line 180). -/
theorem argminIdx_spec (l : List ℚ) (hne : l ≠ []) :
    argminIdx l < l.length ∧ ∀ j, j < l.length → l.getD (argminIdx l) 0 ≤ l.getD j 0 := by
  match l with
  | [] => exact absurd rfl hne
  | x :: xs =>
    have hle := argminAux_le xs 1 (0, x)
    have hcases := argminAux_cases xs 1 (0, x)
    have hval : (x :: xs).getD (argminIdx (x :: xs)) 0 = (argminAux xs 1 (0, x)).2 := by
      rcases hcases with heq | ⟨k, hk, heq⟩
      · simp [argminIdx, heq]
      · have h1k : 1 + k = k + 1 := by omega
        simp [argminIdx, heq, h1k, List.getD_cons_succ]
    have hlt : argminIdx (x :: xs) < (x :: xs).length := by
      rcases hcases with heq | ⟨k, hk, heq⟩
      · simp [argminIdx, heq]
      · simp only [argminIdx, heq, List.length_cons]
        omega
    refine ⟨hlt, ?_⟩
    intro j hj
    rw [hval]
    have hmem : (x :: xs).getD j 0 ∈ x :: xs := by
      rw [List.getD_eq_getElem _ _ hj]
      exact List.getElem_mem hj
    rcases List.mem_cons.mp hmem with hx | hx
    · rw [hx]; exact hle.1
    · exact hle.2 _ hx

/-- C1 counterexample: the claim asserts that a remaining candidate at
separation exactly 0 from the contamination-reference position never
causes a drop (`0 < sep < radius`).  In the code (lines 208-213) the only
conditions are `excl_radius > 0` and `sep < excl_radius`, so a coincident
candidate with a positive exclusion radius DOES drop the source: here two
catalog records sit exactly at the source position, the first is popped
as the self-match, and the second — at separation 0 from the reference —
has exclusion radius 10 and drops the source. -/
theorem sep_zero_drop_cex :
    processId exCtx exEntry [exG1, exG2] = true ∧
    (∀ g ∈ (selfMatchStep exCtx (shifted exEntry.radec_geojson) [exG1, exG2]).1,
      exCtx.sep (selfMatchStep exCtx (shifted exEntry.radec_geojson) [exG1, exG2]).2
        (shifted g.coordinates) = 0) := by
  refine ⟨?_, ?_⟩ <;>
    norm_num [processId, selfMatchStep, sepsOf, argminIdx, argminAux, dropPred,
      exclRadiusOf, exCtx, exEntry, exG1, exG2, shifted, sepSq, dummyGaia,
      List.getD_cons_zero]

/-- C1 amended: a drop requires only `0 < excl_radius` and
`sep < excl_radius`; there is no strict lower bound on the separation, so
a remaining candidate at separation exactly 0 from the reference position
drops the source whenever its exclusion radius is positive. -/
theorem sep_zero_drop_amended (ctx : DropCtx) (entry : SourceEntry)
    (res : List GaiaRecord) (g : GaiaRecord)
    (hne : res ≠ [])
    (hg : g ∈ (selfMatchStep ctx (shifted entry.radec_geojson) res).1)
    (her : 0 < exclRadiusOf ctx g)
    (hsep : ctx.sep (selfMatchStep ctx (shifted entry.radec_geojson) res).2
      (shifted g.coordinates) < exclRadiusOf ctx g) :
    processId ctx entry res = true := by
  have hres : res.isEmpty = false := by
    cases res with
    | nil => exact absurd rfl hne
    | cons a l => rfl
  simp only [processId, hres, Bool.false_eq_true, if_false]
  refine List.any_eq_true.mpr ⟨g, hg, ?_⟩
  simp only [dropPred]
  rw [decide_eq_true her, decide_eq_true hsep]
  rfl

/-- Witness for C1 amended at a concrete input. -/
theorem sep_zero_drop_amended_wit :
    ([exG1, exG2] ≠ ([] : List GaiaRecord)) ∧
    exG2 ∈ (selfMatchStep exCtx (shifted exEntry.radec_geojson) [exG1, exG2]).1 ∧
    0 < exclRadiusOf exCtx exG2 ∧
    exCtx.sep (selfMatchStep exCtx (shifted exEntry.radec_geojson) [exG1, exG2]).2
      (shifted exG2.coordinates) < exclRadiusOf exCtx exG2 ∧
    processId exCtx exEntry [exG1, exG2] = true := by
  have hne : [exG1, exG2] ≠ ([] : List GaiaRecord) := by simp
  have hg : exG2 ∈ (selfMatchStep exCtx (shifted exEntry.radec_geojson) [exG1, exG2]).1 := by
    norm_num [selfMatchStep, sepsOf, argminIdx, argminAux, exCtx, exEntry,
      exG1, exG2, shifted, sepSq, dummyGaia, List.getD_cons_zero]
  have her : 0 < exclRadiusOf exCtx exG2 := by
    norm_num [exclRadiusOf, exCtx, exG2]
  have hsep : exCtx.sep (selfMatchStep exCtx (shifted exEntry.radec_geojson) [exG1, exG2]).2
      (shifted exG2.coordinates) < exclRadiusOf exCtx exG2 := by
    norm_num [selfMatchStep, sepsOf, argminIdx, argminAux, exclRadiusOf, exCtx,
      exEntry, exG1, exG2, shifted, sepSq, dummyGaia, List.getD_cons_zero]
  exact ⟨hne, hg, her, hsep,
    sep_zero_drop_amended exCtx exEntry [exG1, exG2] exG2 hne hg her hsep⟩

/-- C5 counterexample: a candidate-match lookup for an id that the query
batching failed to return is NOT treated as "no candidates": line 163
`gaia_results_dct[str(id)]` raises `KeyError`, which propagates out of
`drop_close_bright_stars` (the call fails instead of keeping the
source). -/
theorem missing_lookup_cex :
    dropRun exCtx (fun _ => none) [(("a"), exEntry)] = Except.error () := rfl

/-- C5 amended: an id that is present in `id_dct` but absent from the
merged query results makes `drop_close_bright_stars` raise `KeyError`
(the error propagates); only an id whose lookup returns an empty list is
treated as having no candidates. -/
theorem missing_lookup_amended (ctx : DropCtx)
    (results : String → Option (List GaiaRecord))
    (d : List (String × SourceEntry)) (i : String) (e : SourceEntry)
    (hmem : (i, e) ∈ d) (hres : results i = none) :
    dropRun ctx results d = Except.error () := by
  induction d with
  | nil => simp at hmem
  | cons p rest ih =>
    obtain ⟨j, f⟩ := p
    cases hj : results j with
    | none => simp only [dropRun, hj]
    | some resj =>
      rcases List.mem_cons.mp hmem with heq | hmem2
      · cases heq
        rw [hres] at hj
        exact absurd hj (by simp)
      · have hrest := ih hmem2
        simp only [dropRun, hj, hrest]

/-- Witness for C5 amended at a concrete input. -/
theorem missing_lookup_amended_wit :
    (("a"), exEntry) ∈ [(("b"), exEntry), (("a"), exEntry)] ∧
    dropRun exCtx (fun _ => none) [(("b"), exEntry), (("a"), exEntry)] =
      Except.error () :=
  ⟨by simp, missing_lookup_amended exCtx (fun _ => none)
    [(("b"), exEntry), (("a"), exEntry)] ("a") exEntry (by simp) rfl⟩

/-- C6: the minimum-separation candidate is selected (`argminIdx` indeed
picks a minimum); if its separation is below `xmatch_radius_arcsec` it is
removed from the candidate list and its shifted catalog coordinates
become the reference position, otherwise nothing is removed and the
shifted input position is the reference; and a source whose only
candidate is a self-match is kept. -/
theorem self_match_handling (ctx : DropCtx) (entry : SourceEntry)
    (res : List GaiaRecord) (seps : List ℚ) (i : ℕ)
    (hseps : seps = sepsOf ctx (shifted entry.radec_geojson) res)
    (hi : i = argminIdx seps)
    (hne : res ≠ []) :
    i < res.length ∧
    (∀ j, j < res.length → seps.getD i 0 ≤ seps.getD j 0) ∧
    (seps.getD i 0 < ctx.xmatchRadiusArcsec →
      selfMatchStep ctx (shifted entry.radec_geojson) res =
        (res.eraseIdx i, shifted (res.getD i dummyGaia).coordinates)) ∧
    (ctx.xmatchRadiusArcsec ≤ seps.getD i 0 →
      selfMatchStep ctx (shifted entry.radec_geojson) res =
        (res, shifted entry.radec_geojson)) ∧
    (∀ g, res = [g] →
      ctx.sep (shifted g.coordinates) (shifted entry.radec_geojson) <
        ctx.xmatchRadiusArcsec →
      processId ctx entry res = false) := by
  subst hi
  subst hseps
  have hlen : (sepsOf ctx (shifted entry.radec_geojson) res).length = res.length := by
    simp [sepsOf]
  have hnesep : sepsOf ctx (shifted entry.radec_geojson) res ≠ [] := by
    cases res with
    | nil => exact absurd rfl hne
    | cons a l => simp [sepsOf]
  obtain ⟨hlt, hmin⟩ := argminIdx_spec _ hnesep
  refine ⟨by rw [← hlen]; exact hlt, ?_, ?_, ?_, ?_⟩
  · intro j hj
    exact hmin j (by rw [hlen]; exact hj)
  · intro hcond
    simp only [selfMatchStep]
    rw [if_pos hcond]
  · intro hcond
    simp only [selfMatchStep]
    rw [if_neg (not_lt.mpr hcond)]
  · intro g hres hsep
    subst hres
    simp [processId, selfMatchStep, sepsOf, argminIdx, argminAux, hsep]

/-- Witness for C6 at a concrete input: a single self-matched candidate,
source kept. -/
theorem self_match_handling_wit :
    ([exG1] ≠ ([] : List GaiaRecord)) ∧
    processId exCtx exEntry [exG1] = false := by
  have hne : [exG1] ≠ ([] : List GaiaRecord) := by simp
  have hsep : exCtx.sep (shifted exG1.coordinates) (shifted exEntry.radec_geojson) <
      exCtx.xmatchRadiusArcsec := by
    norm_num [exCtx, exG1, exEntry, shifted, sepSq]
  exact ⟨hne,
    (self_match_handling exCtx exEntry [exG1]
        (sepsOf exCtx (shifted exEntry.radec_geojson) [exG1])
        (argminIdx (sepsOf exCtx (shifted exEntry.radec_geojson) [exG1]))
        rfl rfl hne).2.2.2.2 exG1 rfl hsep⟩

/-- C9: a source whose bright-star query returned zero candidates is
always kept by `drop_close_bright_stars` (lines 163-164: the whole
per-candidate block is guarded by `len(single_result) > 0`). -/
theorem zero_candidates_source_kept (ctx : DropCtx)
    (results : String → Option (List GaiaRecord))
    (d keep : List (String × SourceEntry)) (i : String) (e : SourceEntry)
    (hrun : dropRun ctx results d = Except.ok keep)
    (hmem : (i, e) ∈ d) (hres : results i = some []) :
    (i, e) ∈ keep := by
  induction d generalizing keep with
  | nil => simp at hmem
  | cons p rest ih =>
    obtain ⟨j, f⟩ := p
    cases hj : results j with
    | none =>
      simp only [dropRun, hj] at hrun
      exact Except.noConfusion hrun
    | some resj =>
      cases hrest : dropRun ctx results rest with
      | error err =>
        simp only [dropRun, hj, hrest] at hrun
        exact Except.noConfusion hrun
      | ok keepR =>
        simp only [dropRun, hj, hrest] at hrun
        injection hrun with hkeep
        rcases List.mem_cons.mp hmem with heq | hmem2
        · cases heq
          rw [hres] at hj
          injection hj with hresj
          subst hresj
          have hp : processId ctx e [] = false := rfl
          rw [hp] at hkeep
          simp only [Bool.false_eq_true, if_false] at hkeep
          rw [← hkeep]
          exact List.mem_cons_self _ _
        · have hkR := ih keepR hrest hmem2
          rw [← hkeep]
          split
          · exact hkR
          · exact List.mem_cons_of_mem _ hkR

/-- Witness for C9 at a concrete input. -/
theorem zero_candidates_source_kept_wit :
    dropRun exCtx (fun _ => some []) [(("a"), exEntry)] =
      Except.ok [(("a"), exEntry)] ∧
    (("a"), exEntry) ∈ [(("a"), exEntry)] :=
  ⟨rfl, zero_candidates_source_kept exCtx (fun _ => some [])
    [(("a"), exEntry)] [(("a"), exEntry)] ("a") exEntry rfl (by simp) rfl⟩

/-- C10: `drop_close_bright_stars` is idempotent — with the same catalog
responses, re-running the filter on its own output drops nothing
further.  Each per-id decision depends only on that id's own entry and
query result, both unchanged on the second run. -/
theorem drop_close_bright_stars_idempotent (ctx : DropCtx)
    (results : String → Option (List GaiaRecord))
    (d keep : List (String × SourceEntry))
    (hrun : dropRun ctx results d = Except.ok keep) :
    dropRun ctx results keep = Except.ok keep := by
  induction d generalizing keep with
  | nil =>
    simp only [dropRun] at hrun
    injection hrun with h
    subst h
    rfl
  | cons p rest ih =>
    obtain ⟨j, f⟩ := p
    cases hj : results j with
    | none =>
      simp only [dropRun, hj] at hrun
      exact Except.noConfusion hrun
    | some resj =>
      cases hrest : dropRun ctx results rest with
      | error err =>
        simp only [dropRun, hj, hrest] at hrun
        exact Except.noConfusion hrun
      | ok keepR =>
        simp only [dropRun, hj, hrest] at hrun
        injection hrun with h
        have ihk := ih keepR hrest
        by_cases hp : processId ctx f resj = true
        · rw [if_pos hp] at h
          subst h
          exact ihk
        · rw [if_neg hp] at h
          subst h
          simp only [dropRun, hj, ihk, if_neg hp]

/-- Witness for C10 at a concrete input. -/
theorem drop_idempotent_wit :
    dropRun exCtx (fun _ => some []) [(("b"), exEntry)] =
      Except.ok [(("b"), exEntry)] ∧
    dropRun exCtx (fun _ => some []) [(("b"), exEntry)] =
      Except.ok [(("b"), exEntry)] :=
  ⟨rfl, drop_close_bright_stars_idempotent exCtx (fun _ => some [])
    [(("b"), exEntry)] [(("b"), exEntry)] rfl⟩

/-- Updating `feature_dict[id][k] = v` never changes the id column. -/
theorem dictIds_updateKeys (d : FeatureDict) (i : String) (kvs : FeatureRow) :
    dictIds (updateKeys d i kvs) = dictIds d := by
  simp only [dictIds, updateKeys, List.map_map]
  congr 1
  funext kv
  by_cases h : kv.1 == i
  · simp [Function.comp, h]
  · simp [Function.comp, h]

/-- A fold of id-column-preserving steps preserves the id column. -/
theorem dictIds_foldl {α : Type} (f : FeatureDict → α → FeatureDict) (l : List α)
    (hf : ∀ d a, dictIds (f d a) = dictIds d) :
    ∀ d : FeatureDict, dictIds (List.foldl f d l) = dictIds d := by
  induction l with
  | nil => intro d; rfl
  | cons a l ih => intro d; rw [List.foldl_cons, ih, hf]

/-- The Fourier-stat stage never changes the id column. -/
theorem dictIds_fourierStage (collab : Collab) (alg : String)
    (keepIds : List String) (tmeColl : List (List (ℚ × ℚ × ℚ)))
    (ps ss pd : List ℚ) (d : FeatureDict) :
    dictIds (fourierStage collab alg keepIds tmeColl ps ss pd d) = dictIds d := by
  simp only [fourierStage]
  exact dictIds_foldl _ _ (fun (d : FeatureDict) (a : ℕ × String) => dictIds_updateKeys d a.2 _) d

/-- The dmdt stage never changes the id column. -/
theorem dictIds_dmdtStage (collab : Collab) (keepIds : List String)
    (tmeColl : List (List (ℚ × ℚ × ℚ))) (d : FeatureDict) :
    dictIds (dmdtStage collab keepIds tmeColl d) = dictIds d := by
  simp only [dmdtStage]
  exact dictIds_foldl _ _ (fun (d : FeatureDict) (a : ℕ × String) => dictIds_updateKeys d a.2 _) d

/-- The alert-stats stage never changes the id column. -/
theorem dictIds_alertStage (collab : Collab) (d : FeatureDict) :
    dictIds (alertStage collab d) = dictIds d := by
  simp only [dictIds, alertStage, List.map_map]
  congr 1

/-- The cross-match stage never changes the id column. -/
theorem dictIds_xmatchStage (collab : Collab) (d : FeatureDict) :
    dictIds (xmatchStage collab d) = dictIds d := by
  simp only [dictIds, xmatchStage, List.map_map]
  congr 1

/-- No stage after the per-light-curve loop changes the id column of the
feature table. -/
theorem dictIds_downstream (collab : Collab) (algorithms : List String)
    (pr : String → List ℚ × List ℚ × List ℚ) (keepIds : List String)
    (tmeColl : List (List (ℚ × ℚ × ℚ))) (d : FeatureDict) :
    dictIds (downstream collab algorithms pr keepIds tmeColl d) = dictIds d := by
  simp only [downstream]
  rw [dictIds_xmatchStage, dictIds_alertStage, dictIds_dmdtStage]
  exact dictIds_foldl _ _ (fun d a => dictIds_fourierStage collab a keepIds tmeColl _ _ _ d) d

/-- Unfolding one step of the per-light-curve loop. -/
theorem processLCs_cons (cfg : GenCfg) (collab : Collab)
    (survivors : List (String × SourceEntry)) (st : LoopState) (lc : LC)
    (lcs : List LC) :
    processLCs cfg collab survivors st (lc :: lcs) =
      processLCs cfg collab survivors (processLC cfg collab survivors st lc) lcs := rfl

/-- Each loop step either pops the id (leaving `keep_id_list` and the
baseline unchanged) or appends the id to `keep_id_list`. -/
theorem processLC_keep_or_pop (cfg : GenCfg) (collab : Collab)
    (survivors : List (String × SourceEntry)) (st : LoopState) (lc : LC) :
    ((processLC cfg collab survivors st lc).keepIds = st.keepIds ∧
     (processLC cfg collab survivors st lc).baseline = st.baseline) ∨
    (processLC cfg collab survivors st lc).keepIds = st.keepIds ++ [lc.lcId] := by
  rcases h : parseTME (tmeOf lc) with _ | rows
  · left
    constructor <;> simp [processLC, h]
  · by_cases hlen : (collapseCadence cfg.min_cadence_minutes rows).length <
        cfg.min_n_lc_points
    · left
      constructor <;> simp [processLC, h, hlen]
    · right
      simp [processLC, h, hlen]

/-- List `keep_id_list` only ever grows during the loop. -/
theorem processLCs_keepIds_extend (cfg : GenCfg) (collab : Collab)
    (survivors : List (String × SourceEntry)) (lcs : List LC) :
    ∀ st : LoopState, ∃ t,
      (processLCs cfg collab survivors st lcs).keepIds = st.keepIds ++ t := by
  induction lcs with
  | nil => intro st; exact ⟨[], by simp [processLCs]⟩
  | cons lc lcs ih =>
    intro st
    rw [processLCs_cons]
    obtain ⟨t, ht⟩ := ih (processLC cfg collab survivors st lc)
    rcases processLC_keep_or_pop cfg collab survivors st lc with ⟨hk, _⟩ | hk
    · exact ⟨t, by rw [ht, hk]⟩
    · refine ⟨lc.lcId :: t, ?_⟩
      rw [ht, hk, List.append_assoc]
      simp

/-- If the loop added nothing to `keep_id_list`, it never entered the
survivor branch, so the running baseline is unchanged. -/
theorem processLCs_baseline_of_keepIds (cfg : GenCfg) (collab : Collab)
    (survivors : List (String × SourceEntry)) (lcs : List LC) :
    ∀ st : LoopState,
      (processLCs cfg collab survivors st lcs).keepIds = st.keepIds →
      (processLCs cfg collab survivors st lcs).baseline = st.baseline := by
  induction lcs with
  | nil => intro st h; rfl
  | cons lc lcs ih =>
    intro st h
    rw [processLCs_cons] at h ⊢
    rcases processLC_keep_or_pop cfg collab survivors st lc with ⟨hk, hb⟩ | hk
    · rw [ih _ (by rw [h, hk]), hb]
    · obtain ⟨t, ht⟩ := processLCs_keepIds_extend cfg collab survivors lcs
        (processLC cfg collab survivors st lc)
      rw [ht, hk] at h
      have hlen := congrArg List.length h
      simp [List.length_append] at hlen

/-- C3: a light curve whose extracted rows are empty or cannot be
unpacked into three equal-length numeric columns has its id popped from
the feature dict (the `ValueError` is caught at lines 419-420), and the
loop then continues over the remaining light curves exactly as before —
the batch neither raises nor halts. -/
theorem malformed_lc_rejected_batch_continues (cfg : GenCfg) (collab : Collab)
    (survivors : List (String × SourceEntry)) (st : LoopState) (lc : LC)
    (pre post : List LC)
    (hbad : parseTME (tmeOf lc) = none) :
    processLCs cfg collab survivors st (pre ++ lc :: post) =
      processLCs cfg collab survivors
        { processLCs cfg collab survivors st pre with
          featureDict :=
            popKey (processLCs cfg collab survivors st pre).featureDict lc.lcId }
        post := by
  simp only [processLCs, List.foldl_append, List.foldl_cons]
  congr 1
  simp [processLC, hbad]

/-- C7: a source whose collapsed series has fewer than `min_n_lc_points`
points is removed from the feature dict, joins neither `keep_id_list`
nor `tme_collection`, leaves the baseline unchanged (lines 330-331), and
— being absent from the dict — is absent from the output of every later
pipeline stage. -/
theorem short_series_fully_removed (cfg : GenCfg) (collab : Collab)
    (survivors : List (String × SourceEntry)) (st : LoopState) (lc : LC)
    (rows : List (ℚ × ℚ × ℚ))
    (hrows : parseTME (tmeOf lc) = some rows)
    (hshort : (collapseCadence cfg.min_cadence_minutes rows).length <
      cfg.min_n_lc_points) :
    processLC cfg collab survivors st lc =
      { st with featureDict := popKey st.featureDict lc.lcId } ∧
    (∀ (algorithms : List String) (pr : String → List ℚ × List ℚ × List ℚ)
      (keepIds : List String) (tmeColl : List (List (ℚ × ℚ × ℚ)))
      (d : FeatureDict),
      lc.lcId ∉ dictIds d →
      lc.lcId ∉ dictIds (downstream collab algorithms pr keepIds tmeColl d)) := by
  constructor
  · simp [processLC, hrows, hshort]
  · intro algorithms pr keepIds tmeColl d hnot
    rw [dictIds_downstream]
    exact hnot

/-- C8: if the per-light-curve loop keeps no source at all, the baseline
stays 0, so `generate_features` takes the empty branch (lines 580-584)
and returns a well-formed empty feature table without raising. -/
theorem zero_survivors_empty_table (cfg : GenCfg) (collab : Collab)
    (survivors : List (String × SourceEntry))
    (hdrop : dropRun collab.dropCtx collab.gaiaResults collab.getIds =
      Except.ok survivors)
    (hkeep : (processLCs cfg collab survivors (initState survivors)
        (collab.lightcurves (survivors.map (fun kv => kv.1)))).keepIds = []) :
    generateFeatures cfg collab = (baseEvents, Except.ok []) := by
  have hbase : (processLCs cfg collab survivors (initState survivors)
      (collab.lightcurves (survivors.map (fun kv => kv.1)))).baseline = 0 := by
    have h0 : (initState survivors).keepIds = [] := rfl
    exact processLCs_baseline_of_keepIds cfg collab survivors _ (initState survivors)
      (by rw [hkeep, h0])
  simp only [generateFeatures, hdrop]
  rw [hbase]
  norm_num

/-- A nonempty frequency grid starts exactly at `fmin`. -/
theorem freqsOf_head (spp : ℕ) (baseline : ℚ) (dlp : Bool)
    (h : 0 < nfOf spp baseline dlp) :
    (freqsOf spp baseline dlp).head? = some (fminOf baseline) := by
  have hn : (nfOf spp baseline dlp).toNat ≠ 0 := by omega
  obtain ⟨m, hm⟩ := Nat.exists_eq_succ_of_ne_zero hn
  rw [freqsOf, hm, List.range_succ_eq_map]
  simp

/-- C4: the frequency grid (lines 422-431) satisfies the stated formulas,
is strictly increasing, starts at `fmin`, and in the concrete scenario
(baseline 10, `samples_per_peak` 10, short-period mode) has exactly
47980 points starting at 0.2. -/
theorem frequency_grid_spec_holds (spp : ℕ) (baseline : ℚ) (dlp : Bool)
    (hspp : 0 < spp) (hb : 0 < baseline) :
    freqGridSpec spp baseline dlp ∧
    (freqsOf 10 10 false).length = 47980 ∧
    (freqsOf 10 10 false).head? = some (1/5) := by
  have hsppQ : (0 : ℚ) < spp := by exact_mod_cast hspp
  have hdf : 0 < dfOf spp baseline := by
    rw [dfOf]
    exact one_div_pos.mpr (mul_pos hsppQ hb)
  have hnf10 : nfOf 10 10 false = 47980 := by
    have h1 : (fmaxOf false - fminOf 10) / dfOf 10 10 = ((47980 : ℤ) : ℚ) := by
      norm_num [fmaxOf, fminOf, dfOf]
    rw [nfOf, h1, Int.ceil_intCast]
  refine ⟨⟨rfl, rfl, rfl, rfl, ?_, ?_, freqsOf_head spp baseline dlp⟩, ?_, ?_⟩
  · simp [freqsOf]
  · refine List.Pairwise.map _ ?_ (List.pairwise_lt_range _)
    intro a b hab
    have hq : (a : ℚ) < b := by exact_mod_cast hab
    exact add_lt_add_left (mul_lt_mul_of_pos_left hq hdf) _
  · rw [freqsOf, List.length_map, List.length_range, hnf10]
    rfl
  · have hh := freqsOf_head 10 10 false (by rw [hnf10]; norm_num)
    rw [hh]
    norm_num [fminOf]

/-- Witness for C4 at the scenario input. -/
theorem frequency_grid_spec_wit :
    0 < 10 ∧ 0 < (10 : ℚ) ∧ freqGridSpec 10 10 false :=
  ⟨by norm_num, by norm_num,
    (frequency_grid_spec_holds 10 10 false (by norm_num) (by norm_num)).1⟩

/-- C2 counterexample: with both `doCPU` and `doGPU` set, the run DOES
raise the configuration `KeyError` — but only at line 451-453, after the
id query, the bright-star queries and the light-curve query have all
executed: the event trace at the moment of the raise already contains
catalog queries, refuting "before any catalog query executes". -/
theorem both_flags_after_queries_cex :
    generateFeatures cfgBoth exCollab = (baseEvents, Except.error bothFlagsMsg) ∧
    Event.query ("gloria") ∈ baseEvents := by
  constructor
  · have hdrop : dropRun exCollab.dropCtx exCollab.gaiaResults exCollab.getIds =
        Except.ok [(("a"), exEntry)] := rfl
    have hbase : (processLCs cfgBoth exCollab [(("a"), exEntry)]
        (initState [(("a"), exEntry)])
        (exCollab.lightcurves (([(("a"), exEntry)] :
          List (String × SourceEntry)).map (fun kv => kv.1)))).baseline = 100 := by
      norm_num [processLCs, processLC, parseTME, tmeOf, collapseCadence, collapseGo,
        initState, exLC, exCollab, cfgBoth, List.max?, List.min?, max_def, min_def,
        List.cons_ne_nil]
    simp only [generateFeatures, hdrop]
    rw [hbase]
    norm_num [cfgBoth]
  · simp [baseEvents]

/-- C2 amended: when both `doCPU` and `doGPU` are set, no period search
ever executes and every successful return carries the empty table; the
`KeyError` is raised exactly when at least one light curve survives
filtering (positive baseline) — and by then the catalog queries have
already run (they precede the check in every trace). -/
theorem both_flags_behavior (cfg : GenCfg) (collab : Collab)
    (hcpu : cfg.doCPU = true) (hgpu : cfg.doGPU = true) :
    (∀ a, Event.periodSearch a ∉ (generateFeatures cfg collab).1) ∧
    (∀ d, (generateFeatures cfg collab).2 = Except.ok d → d = []) ∧
    (∀ survivors,
      dropRun collab.dropCtx collab.gaiaResults collab.getIds =
        Except.ok survivors →
      0 < (processLCs cfg collab survivors (initState survivors)
        (collab.lightcurves (survivors.map (fun kv => kv.1)))).baseline →
      (generateFeatures cfg collab).2 = Except.error bothFlagsMsg) := by
  rcases hdrop : dropRun collab.dropCtx collab.gaiaResults collab.getIds
    with e | survivors
  · refine ⟨?_, ?_, ?_⟩
    · intro a
      simp [generateFeatures, hdrop]
    · intro d hd
      simp [generateFeatures, hdrop] at hd
    · intro s hs
      exact absurd hs (by simp)
  · by_cases hb : (processLCs cfg collab survivors (initState survivors)
        (collab.lightcurves (survivors.map (fun kv => kv.1)))).baseline > 0
    · refine ⟨?_, ?_, ?_⟩
      · intro a
        simp [generateFeatures, hdrop, hb, hcpu, hgpu, baseEvents]
      · intro d hd
        simp [generateFeatures, hdrop, hb, hcpu, hgpu] at hd
      · intro s hs hpos
        injection hs with h
        subst h
        simp [generateFeatures, hdrop, hb, hcpu, hgpu]
    · refine ⟨?_, ?_, ?_⟩
      · intro a
        simp [generateFeatures, hdrop, hb, baseEvents]
      · intro d hd
        simp [generateFeatures, hdrop, hb] at hd
        exact hd
      · intro s hs hpos
        injection hs with h
        subst h
        exact absurd hpos hb

/-- Witness for C2 amended at a concrete input. -/
theorem both_flags_behavior_wit :
    cfgBoth.doCPU = true ∧ cfgBoth.doGPU = true ∧
    (∀ a, Event.periodSearch a ∉ (generateFeatures cfgBoth exCollab).1) :=
  ⟨rfl, rfl, (both_flags_behavior cfgBoth exCollab rfl rfl).1⟩

/-- Witness for C3 at a concrete input: an empty-series light curve in a
one-element batch. -/
theorem malformed_lc_rejected_wit :
    parseTME (tmeOf exLCbad) = none ∧
    processLCs cfgPlain exCollab [(("a"), exEntry)] (initState [(("a"), exEntry)])
        ([] ++ exLCbad :: []) =
      processLCs cfgPlain exCollab [(("a"), exEntry)]
        { processLCs cfgPlain exCollab [(("a"), exEntry)]
            (initState [(("a"), exEntry)]) [] with
          featureDict := popKey (processLCs cfgPlain exCollab [(("a"), exEntry)]
            (initState [(("a"), exEntry)]) []).featureDict exLCbad.lcId } [] :=
  ⟨rfl, malformed_lc_rejected_batch_continues cfgPlain exCollab
    [(("a"), exEntry)] (initState [(("a"), exEntry)]) exLCbad [] [] rfl⟩

/-- Witness for C7 at a concrete input: a two-epoch light curve against a
floor of 50 points. -/
theorem short_series_fully_removed_wit :
    parseTME (tmeOf exLC) =
      some [((0 : ℚ), (10 : ℚ), (1 : ℚ)), ((100 : ℚ), (10 : ℚ), (1 : ℚ))] ∧
    (collapseCadence cfgPlain.min_cadence_minutes
      [((0 : ℚ), (10 : ℚ), (1 : ℚ)), ((100 : ℚ), (10 : ℚ), (1 : ℚ))]).length <
      cfgPlain.min_n_lc_points ∧
    processLC cfgPlain exCollab [(("a"), exEntry)] (initState [(("a"), exEntry)]) exLC =
      { initState [(("a"), exEntry)] with
        featureDict := popKey (initState [(("a"), exEntry)]).featureDict exLC.lcId } := by
  have h1 : parseTME (tmeOf exLC) =
      some [((0 : ℚ), (10 : ℚ), (1 : ℚ)), ((100 : ℚ), (10 : ℚ), (1 : ℚ))] := rfl
  have h2 : (collapseCadence cfgPlain.min_cadence_minutes
      [((0 : ℚ), (10 : ℚ), (1 : ℚ)), ((100 : ℚ), (10 : ℚ), (1 : ℚ))]).length <
      cfgPlain.min_n_lc_points := by
    norm_num [collapseCadence, collapseGo, cfgPlain]
  exact ⟨h1, h2, (short_series_fully_removed cfgPlain exCollab
    [(("a"), exEntry)] (initState [(("a"), exEntry)]) exLC _ h1 h2).1⟩

/-- Witness for C8 at a concrete input: an empty region. -/
theorem zero_survivors_empty_table_wit :
    dropRun exCollabE.dropCtx exCollabE.gaiaResults exCollabE.getIds =
      Except.ok [] ∧
    (processLCs cfgPlain exCollabE [] (initState [])
        (exCollabE.lightcurves (([] : List (String × SourceEntry)).map
          (fun kv => kv.1)))).keepIds = [] ∧
    generateFeatures cfgPlain exCollabE = (baseEvents, Except.ok []) :=
  ⟨rfl, rfl, zero_survivors_empty_table cfgPlain exCollabE [] rfl rfl⟩

end Scope
